import Mathlib

/-!
Shallow embedding of the `user_analysis` metrics pipeline.

The repository has two entry points over the same tabular data:
* `src/mb_task/main.py` — the batch script (namespace `Main` below);
* `src/mb_task/match_bingo_sample_data_analysis.py` — the interactive
  streamlit variant (namespace `Streamlit` below).

Modelling conventions:
* Calendar timestamps are whole days since an arbitrary epoch, as `ℤ`.
  All date arithmetic in the source is at day granularity
  (`pd.Timedelta(days=...)`, `.dt.days`), so this is exact.
* Monetary amounts and derived ratios are `ℚ`.  Division in `ℚ` is
  Lean's total division with `x / 0 = 0`; pandas instead produces
  `inf`/`NaN`.  Every claim that touches a division therefore speaks
  about the divisor itself (`cust_lifetime_months = 0`) rather than
  about the quotient at a zero divisor.
* A pandas `DataFrame` is a `List` of records; a column is a projection.
* `NaN` produced by `mean` of an empty column is modelled as `none`.
* Ambient state the scripts read (the wall clock via
  `pd.Timestamp.today()`, the streamlit session as-of date via
  `st.session_state["as_of_ts"]`) is made explicit as an `Env` argument.
-/

/-- One row of the input table (columns required by the pipeline).
`total_games_played` is kept in `ℚ` because the quantile interpolation
mixes it with rational quantile positions. -/
structure UserRecord where
  date_joined : ℤ
  last_login_date : ℤ
  total_deposit : ℚ
  total_games_played : ℚ
deriving DecidableEq

/-- Ambient state the two scripts read without taking it as a parameter:
`wallClock` is `pd.Timestamp.today()` (read by `Main.identify_churn_users`),
`sessionAsOf` is `st.session_state["as_of_ts"]` (read by the streamlit
derivation and `tag_churn`). -/
structure Env where
  wallClock : ℤ
  sessionAsOf : ℤ
deriving DecidableEq

/-- Embedding of `Series.mean()`: arithmetic mean, `NaN` (here `none`) on an empty column. -/
def mean (xs : List ℚ) : Option ℚ :=
  if xs.isEmpty then none else some (xs.sum / xs.length)

/-- Insertion of one element into an ascending list (helper for `sortAsc`). -/
def insertAsc (x : ℚ) : List ℚ → List ℚ
  | [] => [x]
  | y :: t => if x ≤ y then x :: y :: t else y :: insertAsc x t

/-- Ascending insertion sort, the order `np.percentile` works over. -/
def sortAsc (xs : List ℚ) : List ℚ := xs.foldr insertAsc []

/-- Linear-interpolation quantile at position `k/4` of an already sorted
list, the method `pandas.qcut` uses to place its bin edges: for `n`
points the rank of quantile `q = k/4` is `h = q·(n−1)`, and the value is
interpolated between the order statistics around `h`.  With `m := k·(n−1)`
we have `⌊h⌋ = m / 4` (integer division) and `h − ⌊h⌋ = (m % 4)/4`, which
keeps all indexing in `ℕ`.  On an empty list every lookup falls back to
the default `0` (pandas would produce `NaN` edges; either way the edges
collapse and `qcut` fails, see `qcutAssign`). -/
def quarterEdge (xs : List ℚ) (k : ℕ) : ℚ :=
  let m : ℕ := k * (xs.length - 1)
  let i : ℕ := m / 4
  let frac : ℚ := ((m % 4 : ℕ) : ℚ) / 4
  xs.getD i 0 + frac * (xs.getD (i + 1) 0 - xs.getD i 0)

/-- The five bin edges `pd.qcut(col, q=4)` computes: the 0/25/50/75/100th
percentiles of the column. -/
def qEdges (vals : List ℚ) : List ℚ :=
  let s := sortAsc vals
  [quarterEdge s 0, quarterEdge s 1, quarterEdge s 2,
   quarterEdge s 3, quarterEdge s 4]

/-- Whether a list is strictly increasing; `pd.qcut` demands this of its
bin edges (duplicate edges make it raise). -/
def strictlyIncr : List ℚ → Bool
  | [] => true
  | [_] => true
  | a :: b :: t => decide (a < b) && strictlyIncr (b :: t)

/-- Interval membership of `pd.cut` with `right=True` and the lowest edge
included: bucket 0 is `[e0, e1]`, bucket `i>0` is `(e_i, e_{i+1}]`.  Every
column value lies between the 0th and 100th percentile, so the chain of
upper-edge tests places each value in its pandas interval. -/
def assignOf (e1 e2 e3 : ℚ) (v : ℚ) : ℕ :=
  if v ≤ e1 then 0 else if v ≤ e2 then 1 else if v ≤ e3 then 2 else 3

/-- Errors the embedded pipeline can signal.

* `binEdgesNotUnique` — the `ValueError` `pd.qcut` raises when the
  quantile edges are not pairwise distinct: directly in the batch
  variant (`duplicates` defaults to `"raise"`), and through the
  label-count check in the streamlit variant (with `duplicates="drop"`
  its four explicit labels no longer match the reduced edge list).
* `keyError` — pandas `KeyError` for reading an absent column.
* `emptyDataset` — the spec's `EmptyDatasetError` (§7).  Modelled from
  the spec: no code in the repository defines or raises it; it is
  included so that claims phrased in terms of it can be stated. -/
inductive Err where
  | binEdgesNotUnique
  | keyError
  | emptyDataset
deriving DecidableEq

instance {ε α : Type} [DecidableEq ε] [DecidableEq α] :
    DecidableEq (Except ε α) := fun x y =>
  match x, y with
  | .ok a, .ok b =>
      if h : a = b then isTrue (h ▸ rfl) else isFalse fun hh => h (Except.ok.inj hh)
  | .error e, .error f =>
      if h : e = f then isTrue (h ▸ rfl) else isFalse fun hh => h (Except.error.inj hh)
  | .ok _, .error _ => isFalse fun hh => Except.noConfusion hh
  | .error _, .ok _ => isFalse fun hh => Except.noConfusion hh

/-- Embedding of `pd.qcut(df[col], 4, labels=[Q1..Q4])`: compute the quartile edges of
the column and label every row with its bucket index `0..3`, or fail when
the edges are not pairwise distinct (which is also what happens on an
empty table, whose edges all collapse to the default). -/
def qcutAssign {α : Type} (games : α → ℚ) (df : List α) :
    Except Err (List (α × ℕ)) :=
  if strictlyIncr (qEdges (df.map games)) then
    .ok (df.map fun r =>
      (r, assignOf ((qEdges (df.map games)).getD 1 0)
            ((qEdges (df.map games)).getD 2 0)
            ((qEdges (df.map games)).getD 3 0) (games r)))
  else
    .error .binEdgesNotUnique

/-- The four quartile labels, in categorical order. -/
def qlabel : ℕ → String
  | 0 => "Q1"
  | 1 => "Q2"
  | 2 => "Q3"
  | _ => "Q4"

/-- Embedding of `groupby(quartile)["total_deposit"].mean()`, materialised over all four
labels in order.  The batch variant gets all four rows because groupby on
a categorical column keeps unobserved categories; the streamlit variant
gets them through `.reindex(["Q1","Q2","Q3","Q4"])`.  Either way a label
with no members carries `NaN` (`none`). -/
def bucketMeans {α : Type} (dep : α → ℚ) (ann : List (α × ℕ)) :
    List (String × Option ℚ) :=
  (List.range 4).map fun i =>
    (qlabel i, mean ((ann.filter fun p => p.2 == i).map fun p => dep p.1))

/-- Quartile bucketing followed by the per-bucket deposit mean, shared
shape of `Main.user_segmentation` and `Streamlit.quartile_summary`. -/
def summarize {α : Type} (games dep : α → ℚ) (df : List α) :
    Except Err (List (String × Option ℚ)) :=
  (qcutAssign games df).map (bucketMeans dep)

namespace Main

/-- A row after `read_data_and_prepare` (main.py lines 22-26) added the
derived columns.  Note: `cust_lifetime_days` is the raw day difference
`last_login_date - date_joined`, with no lower clip. -/
structure Derived where
  base : UserRecord
  cust_lifetime_days : ℤ
  cust_lifetime_months : ℚ
  monthly_revenue : ℚ
deriving DecidableEq

/-- Row-wise body of `read_data_and_prepare` (main.py lines 24-26):
`cust_lifetime_days = (last_login_date - date_joined).dt.days`,
`cust_lifetime_months = cust_lifetime_days / 30`,
`monthly_revenue = total_deposit / cust_lifetime_months`. -/
def deriveRecord (r : UserRecord) : Derived :=
  let days : ℤ := r.last_login_date - r.date_joined
  let months : ℚ := (days : ℚ) / 30
  { base := r
    cust_lifetime_days := days
    cust_lifetime_months := months
    monthly_revenue := r.total_deposit / months }

/-- Embedding of `read_data_and_prepare` (main.py), minus the out-of-scope file I/O:
the column-wise derivations applied to every row. -/
def read_data_and_prepare (rows : List UserRecord) : List Derived :=
  rows.map deriveRecord

/-- Embedding of `calculate_avg_clv` (main.py lines 30-32):
`(df['monthly_revenue'] * df['cust_lifetime_months']).mean()` —
the mean over rows of the per-row product. -/
def calculate_avg_clv (df : List Derived) : Option ℚ :=
  mean (df.map fun r => r.monthly_revenue * r.cust_lifetime_months)

/-- A row with the `churned` column `identify_churn_users` adds. -/
structure Tagged where
  derived : Derived
  churned : Bool
deriving DecidableEq

/-- Embedding of `identify_churn_users` (main.py lines 35-38):
`cutoff_date = pd.Timestamp.today() - pd.Timedelta(days=cutoff_days)`;
`df['churned'] = df['last_login_date'] < cutoff_date`.  The reference
point is the ambient wall clock. -/
def identify_churn_users (env : Env) (cutoff_days : ℤ) (df : List Derived) :
    List Tagged :=
  let cutoff_date := env.wallClock - cutoff_days
  df.map fun r => { derived := r, churned := r.base.last_login_date < cutoff_date }

/-- Embedding of `user_segmentation` (main.py lines 41-47): `pd.qcut` on
`total_games_played` with labels Q1..Q4 (duplicates raise), then the
groupby mean of `total_deposit` per quartile. -/
def user_segmentation (df : List Tagged) :
    Except Err (List (String × Option ℚ)) :=
  summarize (fun t => t.derived.base.total_games_played)
    (fun t => t.derived.base.total_deposit) df

/-- What the batch run reports (the metric values behind `present` and
the quartile bar chart; rendering itself is out of scope). -/
structure Output where
  avg_clv : Option ℚ
  num_churned : ℕ
  churn_rate : Option ℚ
  seg : List (String × Option ℚ)
deriving DecidableEq

/-- Embedding of `main()` (main.py lines 97-109), minus file I/O and rendering:
derive, compute CLV, tag churn with cutoff 30, count and rate
(`0/0` on an empty table is a numpy `NaN`, not an exception, hence
`none`), then quartile segmentation — whose failure aborts the run
before any chart or metric is emitted. -/
def pipeline (env : Env) (rows : List UserRecord) : Except Err Output :=
  let df := read_data_and_prepare rows
  let avg_clv := calculate_avg_clv df
  let tagged := identify_churn_users env 30 df
  let num_churned := (tagged.filter fun t => t.churned).length
  let churn_rate : Option ℚ :=
    if tagged.isEmpty then none else some ((num_churned : ℚ) / tagged.length)
  match user_segmentation tagged with
  | .error e => .error e
  | .ok seg => .ok { avg_clv, num_churned, churn_rate, seg }

end Main

namespace Streamlit

/-- A row after the streamlit `read_data_and_prepare` (lines 24-30)
added its derived columns.  Here `lifetime_days` IS clipped:
`(today - date_joined).dt.days.clip(lower=1)`. -/
structure Derived where
  base : UserRecord
  lifetime_days : ℤ
  lifetime_months : ℚ
  monthly_revenue : ℚ
deriving DecidableEq

/-- Row-wise body of the streamlit `read_data_and_prepare`, with `today`
the session as-of timestamp the function reads from
`st.session_state["as_of_ts"]`. -/
def deriveRecord (env : Env) (r : UserRecord) : Derived :=
  let today := env.sessionAsOf
  let days : ℤ := max 1 (today - r.date_joined)
  let months : ℚ := (days : ℚ) / 30
  { base := r
    lifetime_days := days
    lifetime_months := months
    monthly_revenue := r.total_deposit / months }

/-- The streamlit `read_data_and_prepare`, minus the out-of-scope
file upload/parse. -/
def read_data_and_prepare (env : Env) (rows : List UserRecord) : List Derived :=
  rows.map (deriveRecord env)

/-- The numeric columns present on the streamlit derived frame: the four
input columns (dates as their day numbers) plus the three derived ones.
`cust_lifetime_months` is deliberately NOT here — the streamlit
derivation names its column `lifetime_months`. -/
def sColumns : List String :=
  ["date_joined", "last_login_date", "total_deposit", "total_games_played",
   "lifetime_days", "lifetime_months", "monthly_revenue"]

/-- Value of a named column at one row of the streamlit derived frame.
Only meaningful for names in `sColumns`; any other name defaults to `0`
and is unreachable because `getCol` rejects it first. -/
def colVal (c : String) (r : Derived) : ℚ :=
  if c = "date_joined" then (r.base.date_joined : ℚ)
  else if c = "last_login_date" then (r.base.last_login_date : ℚ)
  else if c = "total_deposit" then r.base.total_deposit
  else if c = "total_games_played" then r.base.total_games_played
  else if c = "lifetime_days" then (r.lifetime_days : ℚ)
  else if c = "lifetime_months" then r.lifetime_months
  else if c = "monthly_revenue" then r.monthly_revenue
  else 0

/-- Embedding of `df[c]`: column selection, raising pandas `KeyError` when the frame
has no such column (a schema check, independent of the row count). -/
def getCol (df : List Derived) (c : String) : Except Err (List ℚ) :=
  if c ∈ sColumns then .ok (df.map (colVal c)) else .error .keyError

/-- The streamlit `calculate_avg_clv` (lines 35-37):
`df['monthly_revenue'].mean() * df['cust_lifetime_months'].mean()`.
The second column lookup is the source's reference to a column this
variant never creates. -/
def calculate_avg_clv (df : List Derived) : Except Err (Option ℚ) := do
  let mr ← getCol df "monthly_revenue"
  let clm ← getCol df "cust_lifetime_months"
  .ok (Option.map₂ (· * ·) (mean mr) (mean clm))

/-- A row with the `churned` column `tag_churn` adds. -/
structure Tagged where
  derived : Derived
  churned : Bool
deriving DecidableEq

/-- Embedding of `tag_churn` (lines 40-43):
`limit = st.session_state["as_of_ts"] - pd.Timedelta(days=cut_off)`;
`df["churned"] = df["last_login_date"] < limit`. -/
def tag_churn (env : Env) (cut_off : ℤ) (df : List Derived) : List Tagged :=
  let limit := env.sessionAsOf - cut_off
  df.map fun r => { derived := r, churned := r.base.last_login_date < limit }

/-- Embedding of `quartile_summary` (lines 46-54): `pd.qcut` on `total_games_played`
with labels Q1..Q4 and `duplicates="drop"`, groupby mean of
`total_deposit`, reindexed over all four labels.  With explicit labels,
dropping any duplicate edge trips the label-count check, so the success
and failure conditions coincide with the batch variant's. -/
def quartile_summary (df : List Tagged) :
    Except Err (List (String × Option ℚ)) :=
  summarize (fun t => t.derived.base.total_games_played)
    (fun t => t.derived.base.total_deposit) df

/-- What one recomputation of the streamlit view reports. -/
structure Output where
  cohort_size : ℕ
  avg_clv : Option ℚ
  inactive : ℕ
  seg : List (String × Option ℚ)
deriving DecidableEq

/-- The streamlit script body (lines 79-115), minus upload and
rendering: derive, tag churn, compute CLV (whose failure aborts the
rerun before any metric renders), then the quartile summary. -/
def pipeline (env : Env) (cutoff_days : ℤ) (rows : List UserRecord) :
    Except Err Output := do
  let df := read_data_and_prepare env rows
  let tagged := tag_churn env cutoff_days df
  let avg_clv ← calculate_avg_clv (tagged.map fun t => t.derived)
  let seg ← quartile_summary tagged
  .ok { cohort_size := tagged.length
        avg_clv
        inactive := (tagged.filter fun t => t.churned).length
        seg }

end Streamlit

/-- Modelled from the spec (§4.2): the contract formula
`mean(monthly_revenue) × mean(lifetime_months)` over the batch derived
table, for comparison with `Main.calculate_avg_clv`. -/
def clv_spec (df : List Main.Derived) : Option ℚ :=
  Option.map₂ (· * ·) (mean (df.map fun r => r.monthly_revenue))
    (mean (df.map fun r => r.cust_lifetime_months))

/-- Sample rows used by the concrete witnesses and counterexamples:
joined at day 0, logins at days 30 and 60, deposits 30 and 120, games 1
and 2.  Batch derivation gives lifetimes of 1 and 2 months and monthly
revenues of 30 and 60. -/
def sampleRow1 : UserRecord := ⟨0, 30, 30, 1⟩

/-- Second sample row, see `sampleRow1`. -/
def sampleRow2 : UserRecord := ⟨0, 60, 120, 2⟩

/-- A four-row table on which quartile bucketing succeeds (games 1..4);
one row's last login (day 100) sits between the churn limits that wall
clocks 120 and 200 induce with the hard-coded 30-day cutoff. -/
def sampleRows4 : List UserRecord :=
  [⟨0, 100, 30, 1⟩, ⟨0, 10, 120, 2⟩, ⟨0, 10, 5, 3⟩, ⟨0, 10, 7, 4⟩]

/-- The two-row batch table the witnesses bucket: games 1 and 2 give
distinct quantile edges `[1, 5/4, 3/2, 7/4, 2]`; row 1 falls in bucket 0
and row 2 in bucket 3. -/
def sampleTaggedM : List Main.Tagged :=
  [⟨Main.deriveRecord sampleRow1, true⟩, ⟨Main.deriveRecord sampleRow2, true⟩]

/-- The annotation `qcutAssign` produces for `sampleTaggedM`. -/
def sampleAnnM : List (Main.Tagged × ℕ) :=
  [(⟨Main.deriveRecord sampleRow1, true⟩, 0), (⟨Main.deriveRecord sampleRow2, true⟩, 3)]

/-- Streamlit counterpart of `sampleTaggedM` (as-of day 100). -/
def sampleTaggedS : List Streamlit.Tagged :=
  [⟨Streamlit.deriveRecord ⟨0, 100⟩ sampleRow1, false⟩,
   ⟨Streamlit.deriveRecord ⟨0, 100⟩ sampleRow2, false⟩]

/-- The annotation `qcutAssign` produces for `sampleTaggedS`. -/
def sampleAnnS : List (Streamlit.Tagged × ℕ) :=
  [(⟨Streamlit.deriveRecord ⟨0, 100⟩ sampleRow1, false⟩, 0),
   (⟨Streamlit.deriveRecord ⟨0, 100⟩ sampleRow2, false⟩, 3)]

/-- Population of quartile bucket `i` in an annotated table. -/
def bucketCount {α : Type} (ann : List (α × ℕ)) (i : ℕ) : ℕ :=
  ann.countP fun p => p.2 == i

/-- How many of the four quartile labels have at least one member. -/
def nonemptyBuckets {α : Type} (ann : List (α × ℕ)) : ℕ :=
  (List.range 4).countP fun i => decide (0 < bucketCount ann i)

section Helpers

/-- The streamlit CLV estimator always fails: its second column lookup,
`df['cust_lifetime_months']`, names a column the streamlit derivation
never creates (that variant's column is `lifetime_months`). -/
theorem streamlit_clv_keyError (df : List Streamlit.Derived) :
    Streamlit.calculate_avg_clv df = .error .keyError := by
  have h1 : Streamlit.getCol df "monthly_revenue" = .ok (df.map (Streamlit.colVal "monthly_revenue")) := by
    unfold Streamlit.getCol
    rw [if_pos (by decide)]
  have h2 : Streamlit.getCol df "cust_lifetime_months" = .error .keyError := by
    unfold Streamlit.getCol
    rw [if_neg (by decide)]
  unfold Streamlit.calculate_avg_clv
  rw [bind, Except.instMonad]
  simp [Except.bind, h1, h2]

/-- On success, `qcutAssign` returned exactly the input rows, each paired
with the bucket of its `games` value among the computed quartile edges. -/
theorem qcutAssign_ok_eq {α : Type} {games : α → ℚ} {df : List α}
    {ann : List (α × ℕ)} (h : qcutAssign games df = .ok ann) :
    ann = df.map fun r =>
      (r, assignOf ((qEdges (df.map games)).getD 1 0)
            ((qEdges (df.map games)).getD 2 0)
            ((qEdges (df.map games)).getD 3 0) (games r)) := by
  unfold qcutAssign at h
  by_cases hc : strictlyIncr (qEdges (df.map games))
  · rw [if_pos hc] at h
    exact (Except.ok.inj h).symm
  · rw [if_neg hc] at h
    cases h

/-- Annotation preserves the table: stripping the bucket labels gives
back the input rows in order. -/
theorem qcutAssign_map_fst {α : Type} {games : α → ℚ} {df : List α}
    {ann : List (α × ℕ)} (h : qcutAssign games df = .ok ann) :
    ann.map Prod.fst = df := by
  rw [qcutAssign_ok_eq h, List.map_map]
  exact List.map_id df

/-- Lemma: `qcutAssign` fails on the empty table (all five edges collapse), so
success implies the table was non-empty. -/
theorem qcutAssign_ok_ne_nil {α : Type} {games : α → ℚ} {df : List α}
    {ann : List (α × ℕ)} (h : qcutAssign games df = .ok ann) : df ≠ [] := by
  intro hdf
  subst hdf
  have hfail : qcutAssign games ([] : List α) = .error .binEdgesNotUnique := by
    unfold qcutAssign
    simp only [List.map_nil]
    rw [if_neg (by norm_num [strictlyIncr, qEdges, sortAsc, quarterEdge])]
  rw [hfail] at h
  cases h

/-- The bucket chooser only produces the four labels `0..3`. -/
theorem assignOf_lt_four (e1 e2 e3 v : ℚ) : assignOf e1 e2 e3 v < 4 := by
  unfold assignOf
  split_ifs <;> norm_num

/-- Counting a list by each of the four possible values of a function
into `0..3` accounts for every element exactly once. -/
theorem countP_four_split {α : Type} (f : α → ℕ) (hf : ∀ a, f a < 4)
    (l : List α) :
    l.countP (fun a => f a == 0) + l.countP (fun a => f a == 1)
      + l.countP (fun a => f a == 2) + l.countP (fun a => f a == 3)
      = l.length := by
  induction l with
  | nil => simp
  | cons a t ih =>
    simp only [List.countP_cons, List.length_cons]
    have ha : f a < 4 := hf a
    interval_cases hfa : f a <;> simp <;> omega


/-- Structural invariants of a successful `qcutAssign` run: the four
bucket populations partition the row count, between one and four labels
are inhabited, labels stay below 4, and buckets are pairwise disjoint. -/
theorem qcut_partition {α : Type} {games : α → ℚ} {df : List α}
    {ann : List (α × ℕ)} (h : qcutAssign games df = .ok ann) :
    bucketCount ann 0 + bucketCount ann 1 + bucketCount ann 2 + bucketCount ann 3
      = df.length
    ∧ 1 ≤ nonemptyBuckets ann ∧ nonemptyBuckets ann ≤ 4
    ∧ (∀ p ∈ ann, p.2 < 4)
    ∧ (∀ i j : ℕ, i ≠ j →
        List.Disjoint (ann.filter fun p => p.2 == i)
          (ann.filter fun p => p.2 == j)) := by
  have hann := qcutAssign_ok_eq h
  have hmem : ∀ p ∈ ann, p.2 < 4 := by
    intro p hp
    rw [hann] at hp
    obtain ⟨r, _, rfl⟩ := List.mem_map.mp hp
    exact assignOf_lt_four _ _ _ _
  refine ⟨?_, ?_, ?_, hmem, ?_⟩
  · have := countP_four_split
      (fun r => assignOf ((qEdges (df.map games)).getD 1 0)
        ((qEdges (df.map games)).getD 2 0)
        ((qEdges (df.map games)).getD 3 0) (games r))
      (fun r => assignOf_lt_four _ _ _ _) df
    simpa [bucketCount, hann, List.countP_map, Function.comp] using this
  · rcases hd : df with _ | ⟨r, t⟩
    · exact absurd hd (qcutAssign_ok_ne_nil h)
    · have hr : (r, assignOf ((qEdges (df.map games)).getD 1 0)
          ((qEdges (df.map games)).getD 2 0)
          ((qEdges (df.map games)).getD 3 0) (games r)) ∈ ann := by
        rw [hann, hd]
        exact List.mem_map_of_mem _ (by simp)
      have hcount : 0 < bucketCount ann
          (assignOf ((qEdges (df.map games)).getD 1 0)
            ((qEdges (df.map games)).getD 2 0)
            ((qEdges (df.map games)).getD 3 0) (games r)) :=
        List.countP_pos_iff.mpr ⟨_, hr, by simp⟩
      exact List.countP_pos_iff.mpr
        ⟨_, List.mem_range.mpr (assignOf_lt_four _ _ _ _), by simpa using hcount⟩
  · exact le_trans (List.countP_le_length _) (by simp)
  · intro i j hij p hpi hpj
    have hi := (List.mem_filter.mp hpi).2
    have hj := (List.mem_filter.mp hpj).2
    exact hij (by rw [← beq_iff_eq.mp hi, ← beq_iff_eq.mp hj])

end Helpers

/-- C1, counterexample: on the concrete two-row derived table the batch
CLV estimator returns the mean of the per-record products (75), not the
product of the means (67.5) the claim prescribes. -/
theorem clv_estimator_cx :
    Main.calculate_avg_clv (Main.read_data_and_prepare [sampleRow1, sampleRow2])
      = some 75
    ∧ clv_spec (Main.read_data_and_prepare [sampleRow1, sampleRow2])
      = some (135 / 2)
    ∧ (75 : ℚ) ≠ 135 / 2 := by
  refine ⟨?_, ?_, by norm_num⟩
  · norm_num [Main.calculate_avg_clv, Main.read_data_and_prepare,
      Main.deriveRecord, mean, sampleRow1, sampleRow2]
  · norm_num [clv_spec, Main.read_data_and_prepare, Main.deriveRecord, mean,
      Option.map₂, sampleRow1, sampleRow2]

/-- C1, amended: the batch `calculate_avg_clv` returns the mean of the
per-record products `monthly_revenue × cust_lifetime_months`; the
streamlit `calculate_avg_clv`, which textually is mean × mean, fails
with a `KeyError` on every table because it reads the absent column
`cust_lifetime_months`. -/
theorem clv_estimator_formulas :
    (∀ df : List Streamlit.Derived,
        Streamlit.calculate_avg_clv df = .error .keyError)
    ∧ (∀ df : List Main.Derived, df ≠ [] →
        Main.calculate_avg_clv df
          = some ((df.map fun r =>
              r.monthly_revenue * r.cust_lifetime_months).sum / (df.length : ℚ))) := by
  refine ⟨streamlit_clv_keyError, fun df hdf => ?_⟩
  simp [Main.calculate_avg_clv, mean, List.isEmpty_iff, List.map_eq_nil_iff, hdf]

/-- Witness for `clv_estimator_formulas` at concrete inputs. -/
theorem clv_estimator_formulas_witness :
    (Main.read_data_and_prepare [sampleRow1, sampleRow2] ≠ [])
    ∧ Streamlit.calculate_avg_clv [] = .error .keyError
    ∧ Main.calculate_avg_clv (Main.read_data_and_prepare [sampleRow1, sampleRow2])
        = some (((Main.read_data_and_prepare [sampleRow1, sampleRow2]).map fun r =>
            r.monthly_revenue * r.cust_lifetime_months).sum
            / ((Main.read_data_and_prepare [sampleRow1, sampleRow2]).length : ℚ)) :=
  ⟨by simp [Main.read_data_and_prepare, sampleRow1, sampleRow2],
   clv_estimator_formulas.1 [],
   clv_estimator_formulas.2 _ (by simp [Main.read_data_and_prepare, sampleRow1, sampleRow2])⟩

/-- C2, counterexample: the batch derivation has no floor — a record
whose last login equals its join date gets `cust_lifetime_days = 0`
(not `≥ 1`) and a zero `cust_lifetime_months` divisor. -/
theorem lifetime_floor_cx :
    (Main.deriveRecord ⟨5, 5, 7, 3⟩).cust_lifetime_days = 0
    ∧ ¬ (1 ≤ (Main.deriveRecord ⟨5, 5, 7, 3⟩).cust_lifetime_days)
    ∧ (Main.deriveRecord ⟨5, 5, 7, 3⟩).cust_lifetime_months = 0 := by
  norm_num [Main.deriveRecord]

/-- C2, amended: only the streamlit derivation floors the day count at 1
(`.clip(lower=1)`), making its `lifetime_months` divisor provably
nonzero; the batch derivation keeps the raw day difference, which is `0`
whenever `last_login_date = date_joined`. -/
theorem lifetime_floor :
    (∀ (env : Env) (r : UserRecord),
        1 ≤ (Streamlit.deriveRecord env r).lifetime_days
        ∧ (Streamlit.deriveRecord env r).lifetime_months ≠ 0)
    ∧ (∀ r : UserRecord,
        (Main.deriveRecord r).cust_lifetime_days
          = r.last_login_date - r.date_joined) := by
  refine ⟨fun env r => ⟨le_max_left _ _, ?_⟩, fun r => rfl⟩
  show (((max 1 (env.sessionAsOf - r.date_joined) : ℤ) : ℚ)) / 30 ≠ 0
  refine div_ne_zero ?_ (by norm_num)
  have h1 : (1 : ℤ) ≤ max 1 (env.sessionAsOf - r.date_joined) := le_max_left _ _
  exact Int.cast_ne_zero.mpr (by omega)

/-- C4, counterexample: on the empty table the batch pipeline fails with
the duplicate-bin-edges error from quartile bucketing, not with the
spec's `EmptyDatasetError` (which no code defines or raises). -/
theorem empty_input_cx :
    Main.pipeline ⟨0, 0⟩ [] = .error .binEdgesNotUnique
    ∧ Err.binEdgesNotUnique ≠ Err.emptyDataset := by
  refine ⟨?_, by decide⟩
  norm_num [Main.pipeline, Main.read_data_and_prepare, Main.calculate_avg_clv,
    Main.identify_churn_users, Main.user_segmentation, summarize, qcutAssign,
    Except.map, qEdges, sortAsc, quarterEdge, strictlyIncr, mean]

/-- C4, amended: on a zero-row table each variant aborts before emitting
any metric or chart — the batch pipeline inside quartile bucketing (the
churn rate `0/0` is a NaN, not an exception, so execution reaches
`pd.qcut`, which raises on the collapsed edges), the streamlit pipeline
already at the CLV `KeyError`; neither raises an `EmptyDatasetError`. -/
theorem empty_input_aborts (env : Env) (cutoff : ℤ) :
    Main.pipeline env [] = .error .binEdgesNotUnique
    ∧ Streamlit.pipeline env cutoff [] = .error .keyError := by
  constructor
  · norm_num [Main.pipeline, Main.read_data_and_prepare, Main.calculate_avg_clv,
      Main.identify_churn_users, Main.user_segmentation, summarize, qcutAssign,
      Except.map, qEdges, sortAsc, quarterEdge, strictlyIncr, mean]
  · have h := streamlit_clv_keyError
      ((Streamlit.tag_churn env cutoff (Streamlit.read_data_and_prepare env [])).map
        fun t => t.derived)
    simp [Streamlit.pipeline, h, Except.instMonad, Except.bind]

/-- C3: both churn taggers flag a record exactly when its
`last_login_date` is strictly earlier than the reference as-of timestamp
minus the cutoff (the wall clock in the batch variant, the session as-of
in the streamlit one); a record landing exactly on the limit stays
`churned = false`. -/
theorem churn_strict_cutoff (env : Env) (cutoff : ℤ)
    (df : List Main.Derived) (sdf : List Streamlit.Derived) :
    ((Main.identify_churn_users env cutoff df).map Main.Tagged.churned
      = df.map fun r => decide (r.base.last_login_date < env.wallClock - cutoff))
    ∧ ((Streamlit.tag_churn env cutoff sdf).map Streamlit.Tagged.churned
      = sdf.map fun r => decide (r.base.last_login_date < env.sessionAsOf - cutoff))
    ∧ (∀ r : Main.Derived, r.base.last_login_date = env.wallClock - cutoff →
        (Main.identify_churn_users env cutoff [r]).map Main.Tagged.churned = [false])
    ∧ (∀ r : Streamlit.Derived, r.base.last_login_date = env.sessionAsOf - cutoff →
        (Streamlit.tag_churn env cutoff [r]).map Streamlit.Tagged.churned = [false]) := by
  refine ⟨?_, ?_, ?_, ?_⟩
  · simp [Main.identify_churn_users, List.map_map, Function.comp_def]
  · simp [Streamlit.tag_churn, List.map_map, Function.comp_def]
  · intro r hr
    simp [Main.identify_churn_users, hr]
  · intro r hr
    simp [Streamlit.tag_churn, hr]

/-- Witness for `churn_strict_cutoff`: with as-of 100 and cutoff 30 a
record whose last login is exactly day 70 is not churned, in either
variant. -/
theorem churn_strict_cutoff_witness :
    ((Main.deriveRecord ⟨40, 70, 10, 1⟩).base.last_login_date = (100 : ℤ) - 30)
    ∧ (Main.identify_churn_users ⟨100, 100⟩ 30
        [Main.deriveRecord ⟨40, 70, 10, 1⟩]).map Main.Tagged.churned = [false]
    ∧ (Streamlit.tag_churn ⟨100, 100⟩ 30
        [Streamlit.deriveRecord ⟨100, 100⟩ ⟨40, 70, 10, 1⟩]).map
          Streamlit.Tagged.churned = [false] :=
  ⟨by decide,
   (churn_strict_cutoff ⟨100, 100⟩ 30 [] []).2.2.1 _ (by decide),
   (churn_strict_cutoff ⟨100, 100⟩ 30 [] []).2.2.2 _ (by decide)⟩

/-- C5, counterexample: a one-row table is a legitimate input, yet both
variants' quartile bucketing raises (all five quantile edges equal the
single games value) and so yields no buckets at all, not 1..4. -/
theorem quartile_bucket_cx :
    Main.user_segmentation [⟨Main.deriveRecord sampleRow1, true⟩]
      = .error .binEdgesNotUnique
    ∧ Streamlit.quartile_summary [⟨Streamlit.deriveRecord ⟨0, 100⟩ sampleRow1, false⟩]
      = .error .binEdgesNotUnique := by
  constructor <;>
    norm_num [Main.user_segmentation, Streamlit.quartile_summary, summarize,
      qcutAssign, Except.map, qEdges, sortAsc, insertAsc, quarterEdge,
      strictlyIncr, Main.deriveRecord, Streamlit.deriveRecord, sampleRow1]

/-- C5, amended: whenever quartile bucketing succeeds (the five quantile
edges of `total_games_played` are pairwise distinct — both variants raise
otherwise, e.g. on empty or one-row tables), the four bucket populations
sum to the row count, between 1 and 4 labels are inhabited, the buckets
are pairwise disjoint, and the segmentation output is the per-bucket
summary of exactly that annotation. -/
theorem quartile_bucket_invariants
    (dfM : List Main.Tagged) (annM : List (Main.Tagged × ℕ))
    (hM : qcutAssign (fun t => t.derived.base.total_games_played) dfM = .ok annM)
    (dfS : List Streamlit.Tagged) (annS : List (Streamlit.Tagged × ℕ))
    (hS : qcutAssign (fun t => t.derived.base.total_games_played) dfS = .ok annS) :
    (bucketCount annM 0 + bucketCount annM 1 + bucketCount annM 2 + bucketCount annM 3
        = dfM.length
      ∧ 1 ≤ nonemptyBuckets annM ∧ nonemptyBuckets annM ≤ 4
      ∧ (∀ i j : ℕ, i ≠ j →
          List.Disjoint (annM.filter fun p => p.2 == i)
            (annM.filter fun p => p.2 == j))
      ∧ Main.user_segmentation dfM
          = .ok (bucketMeans (fun t => t.derived.base.total_deposit) annM))
    ∧ (bucketCount annS 0 + bucketCount annS 1 + bucketCount annS 2 + bucketCount annS 3
        = dfS.length
      ∧ 1 ≤ nonemptyBuckets annS ∧ nonemptyBuckets annS ≤ 4
      ∧ (∀ i j : ℕ, i ≠ j →
          List.Disjoint (annS.filter fun p => p.2 == i)
            (annS.filter fun p => p.2 == j))
      ∧ Streamlit.quartile_summary dfS
          = .ok (bucketMeans (fun t => t.derived.base.total_deposit) annS)) := by
  obtain ⟨hM1, hM2, hM3, _, hM5⟩ := qcut_partition hM
  obtain ⟨hS1, hS2, hS3, _, hS5⟩ := qcut_partition hS
  exact ⟨⟨hM1, hM2, hM3, hM5, by simp [Main.user_segmentation, summarize, hM, Except.map]⟩,
         ⟨hS1, hS2, hS3, hS5, by simp [Streamlit.quartile_summary, summarize, hS, Except.map]⟩⟩

/-- Witness for `quartile_bucket_invariants` on the concrete two-row
tables: populations `1+0+0+1 = 2`, two inhabited labels. -/
theorem quartile_bucket_invariants_witness :
    (qcutAssign (fun t : Main.Tagged => t.derived.base.total_games_played)
        sampleTaggedM = .ok sampleAnnM)
    ∧ (qcutAssign (fun t : Streamlit.Tagged => t.derived.base.total_games_played)
        sampleTaggedS = .ok sampleAnnS)
    ∧ bucketCount sampleAnnM 0 + bucketCount sampleAnnM 1 + bucketCount sampleAnnM 2
        + bucketCount sampleAnnM 3 = sampleTaggedM.length
    ∧ 1 ≤ nonemptyBuckets sampleAnnM ∧ nonemptyBuckets sampleAnnS ≤ 4 := by
  have hM : qcutAssign (fun t : Main.Tagged => t.derived.base.total_games_played)
      sampleTaggedM = .ok sampleAnnM := by
    norm_num [qcutAssign, qEdges, sortAsc, insertAsc, quarterEdge, strictlyIncr,
      assignOf, sampleTaggedM, sampleAnnM, Main.deriveRecord, sampleRow1, sampleRow2]
  have hS : qcutAssign (fun t : Streamlit.Tagged => t.derived.base.total_games_played)
      sampleTaggedS = .ok sampleAnnS := by
    norm_num [qcutAssign, qEdges, sortAsc, insertAsc, quarterEdge, strictlyIncr,
      assignOf, sampleTaggedS, sampleAnnS, Streamlit.deriveRecord, sampleRow1, sampleRow2]
  have h := quartile_bucket_invariants _ _ hM _ _ hS
  exact ⟨hM, hS, h.1.1, h.1.2.1, h.2.2.2.1⟩

/-- C6: on success the quartile summary of either variant has exactly
four entries, labelled `Q1..Q4` in order; entry `i` carries the mean
`total_deposit` over exactly the records annotated with bucket `i`, and
a label with no members carries null (`NaN`, here `none`). -/
theorem quartile_summary_shape
    (dfM : List Main.Tagged) (annM : List (Main.Tagged × ℕ))
    (hM : qcutAssign (fun t => t.derived.base.total_games_played) dfM = .ok annM)
    (dfS : List Streamlit.Tagged) (annS : List (Streamlit.Tagged × ℕ))
    (hS : qcutAssign (fun t => t.derived.base.total_games_played) dfS = .ok annS) :
    (∃ s, Main.user_segmentation dfM = .ok s
      ∧ s.length = 4
      ∧ s.map Prod.fst = ["Q1", "Q2", "Q3", "Q4"]
      ∧ (∀ i, i < 4 → s.getD i ("", none)
          = (qlabel i, mean ((annM.filter fun p => p.2 == i).map
              fun p => p.1.derived.base.total_deposit)))
      ∧ (∀ i, i < 4 → (annM.filter fun p => p.2 == i) = [] →
          (s.getD i ("", none)).2 = none))
    ∧ (∃ s, Streamlit.quartile_summary dfS = .ok s
      ∧ s.length = 4
      ∧ s.map Prod.fst = ["Q1", "Q2", "Q3", "Q4"]
      ∧ (∀ i, i < 4 → s.getD i ("", none)
          = (qlabel i, mean ((annS.filter fun p => p.2 == i).map
              fun p => p.1.derived.base.total_deposit)))
      ∧ (∀ i, i < 4 → (annS.filter fun p => p.2 == i) = [] →
          (s.getD i ("", none)).2 = none)) := by
  constructor
  · refine ⟨bucketMeans (fun t => t.derived.base.total_deposit) annM,
      by simp [Main.user_segmentation, summarize, hM, Except.map], by simp [bucketMeans],
      rfl, ?_, ?_⟩
    · intro i hi
      interval_cases i <;> rfl
    · intro i hi hfil
      interval_cases i <;> simp [bucketMeans, qlabel, hfil, mean]
  · refine ⟨bucketMeans (fun t => t.derived.base.total_deposit) annS,
      by simp [Streamlit.quartile_summary, summarize, hS, Except.map], by simp [bucketMeans],
      rfl, ?_, ?_⟩
    · intro i hi
      interval_cases i <;> rfl
    · intro i hi hfil
      interval_cases i <;> simp [bucketMeans, qlabel, hfil, mean]

/-- Witness for `quartile_summary_shape` at the concrete two-row tables. -/
theorem quartile_summary_shape_witness :
    (qcutAssign (fun t : Main.Tagged => t.derived.base.total_games_played)
        sampleTaggedM = .ok sampleAnnM)
    ∧ (∃ s, Main.user_segmentation sampleTaggedM = .ok s
      ∧ s.length = 4
      ∧ s.map Prod.fst = ["Q1", "Q2", "Q3", "Q4"]
      ∧ (∀ i, i < 4 → s.getD i ("", none)
          = (qlabel i, mean ((sampleAnnM.filter fun p => p.2 == i).map
              fun p => p.1.derived.base.total_deposit)))
      ∧ (∀ i, i < 4 → (sampleAnnM.filter fun p => p.2 == i) = [] →
          (s.getD i ("", none)).2 = none)) := by
  have hM : qcutAssign (fun t : Main.Tagged => t.derived.base.total_games_played)
      sampleTaggedM = .ok sampleAnnM := by
    norm_num [qcutAssign, qEdges, sortAsc, insertAsc, quarterEdge, strictlyIncr,
      assignOf, sampleTaggedM, sampleAnnM, Main.deriveRecord, sampleRow1, sampleRow2]
  have hS : qcutAssign (fun t : Streamlit.Tagged => t.derived.base.total_games_played)
      sampleTaggedS = .ok sampleAnnS := by
    norm_num [qcutAssign, qEdges, sortAsc, insertAsc, quarterEdge, strictlyIncr,
      assignOf, sampleTaggedS, sampleAnnS, Streamlit.deriveRecord, sampleRow1, sampleRow2]
  exact ⟨hM, (quartile_summary_shape _ _ hM _ _ hS).1⟩

/-- Lemma: `mean` is invariant under permutation of the rows. -/
theorem mean_perm {xs ys : List ℚ} (h : xs.Perm ys) : mean xs = mean ys := by
  unfold mean
  by_cases hx : xs = []
  · subst hx
    rw [h.symm.eq_nil]
  · have hy : ys ≠ [] := fun hh => hx (by subst hh; exact h.eq_nil)
    rw [h.sum_eq, h.length_eq]
    simp [List.isEmpty_iff, hx, hy]

/-- C7: each CLV estimator gives the same value on any permutation of
its table — the batch one because sum and length are order-free, the
streamlit one because it fails identically on every table. -/
theorem clv_row_order_invariant (df df' : List Main.Derived) (h : df.Perm df')
    (sdf sdf' : List Streamlit.Derived) (_hs : sdf.Perm sdf') :
    Main.calculate_avg_clv df = Main.calculate_avg_clv df'
    ∧ Streamlit.calculate_avg_clv sdf = Streamlit.calculate_avg_clv sdf' := by
  constructor
  · unfold Main.calculate_avg_clv
    exact mean_perm (h.map _)
  · rw [streamlit_clv_keyError, streamlit_clv_keyError]

/-- Witness for `clv_row_order_invariant`: swapping the two sample rows
leaves the CLV unchanged. -/
theorem clv_row_order_invariant_witness :
    (Main.read_data_and_prepare [sampleRow1, sampleRow2]).Perm
      (Main.read_data_and_prepare [sampleRow2, sampleRow1])
    ∧ Main.calculate_avg_clv (Main.read_data_and_prepare [sampleRow1, sampleRow2])
      = Main.calculate_avg_clv (Main.read_data_and_prepare [sampleRow2, sampleRow1]) := by
  have hp : (Main.read_data_and_prepare [sampleRow1, sampleRow2]).Perm
      (Main.read_data_and_prepare [sampleRow2, sampleRow1]) :=
    List.Perm.swap _ _ _
  exact ⟨hp, (clv_row_order_invariant _ _ hp [] [] (List.Perm.refl _)).1⟩

/-- C8, counterexample: two batch runs over the same file and the same
hard-coded 30-day cutoff, differing only in the ambient wall clock
(days 120 vs 200), classify the day-100 login differently and so return
different outputs — the batch pipeline is not a function of its declared
inputs alone. -/
theorem pipeline_wallclock_cx :
    (Env.mk 120 50).sessionAsOf = (Env.mk 200 50).sessionAsOf
    ∧ Main.pipeline ⟨120, 50⟩ sampleRows4 ≠ Main.pipeline ⟨200, 50⟩ sampleRows4 := by
  refine ⟨rfl, ?_⟩
  norm_num [Main.pipeline, Main.read_data_and_prepare, Main.deriveRecord,
    Main.calculate_avg_clv, Main.identify_churn_users, Main.user_segmentation,
    summarize, qcutAssign, Except.map, qEdges, sortAsc, insertAsc, quarterEdge,
    strictlyIncr, assignOf, bucketMeans, qlabel, mean, sampleRows4, List.filter]

/-- C8, amended: each variant is deterministic in its explicit inputs
plus the ambient state it actually reads.  The streamlit pipeline is
unaffected by the wall clock — equal session as-of dates give equal
outputs whatever the clocks; the batch pipeline reads the wall clock as
its churn reference, so only runs at the same clock time are guaranteed
to agree. -/
theorem pipeline_deterministic (env env' : Env)
    (h : env.sessionAsOf = env'.sessionAsOf) (cutoff : ℤ) (rows : List UserRecord) :
    (Streamlit.pipeline env cutoff rows = Streamlit.pipeline env' cutoff rows)
    ∧ (env.wallClock = env'.wallClock →
        Main.pipeline env rows = Main.pipeline env' rows) := by
  obtain ⟨w, a⟩ := env
  obtain ⟨w', a'⟩ := env'
  simp only at h
  subst h
  refine ⟨rfl, fun hw => ?_⟩
  simp only at hw
  subst hw
  rfl

/-- Witness for `pipeline_deterministic` at concrete environments. -/
theorem pipeline_deterministic_witness :
    ((Env.mk 7 100).sessionAsOf = (Env.mk 9 100).sessionAsOf)
    ∧ Streamlit.pipeline ⟨7, 100⟩ 30 [sampleRow1]
        = Streamlit.pipeline ⟨9, 100⟩ 30 [sampleRow1]
    ∧ ((Env.mk 7 100).wallClock = (Env.mk 7 100).wallClock)
    ∧ Main.pipeline ⟨7, 100⟩ [sampleRow1] = Main.pipeline ⟨7, 100⟩ [sampleRow1] :=
  ⟨rfl, (pipeline_deterministic ⟨7, 100⟩ ⟨9, 100⟩ rfl 30 [sampleRow1]).1, rfl,
   (pipeline_deterministic ⟨7, 100⟩ ⟨7, 100⟩ rfl 30 [sampleRow1]).2 rfl⟩

/-- C9: the metric stages leave every existing record and column of the
derived table unchanged: stripping the added `churned` column from
either tagger's output returns the input table verbatim, and stripping
the bucket annotation from a successful `qcutAssign` does likewise
(CLV returns a scalar and touches no table).  The taggers and `qcut` do
write their new column into the same frame; object identity is outside
this embedding, but extensionally all pre-existing fields survive. -/
theorem metrics_read_only (env : Env) (cutoff : ℤ)
    (df : List Main.Derived) (sdf : List Streamlit.Derived) :
    ((Main.identify_churn_users env cutoff df).map Main.Tagged.derived = df)
    ∧ ((Streamlit.tag_churn env cutoff sdf).map Streamlit.Tagged.derived = sdf)
    ∧ (∀ (dfM : List Main.Tagged) (ann : List (Main.Tagged × ℕ)),
        qcutAssign (fun t => t.derived.base.total_games_played) dfM = .ok ann →
        ann.map Prod.fst = dfM)
    ∧ (∀ (dfS : List Streamlit.Tagged) (ann : List (Streamlit.Tagged × ℕ)),
        qcutAssign (fun t => t.derived.base.total_games_played) dfS = .ok ann →
        ann.map Prod.fst = dfS) := by
  refine ⟨?_, ?_, fun _ _ hq => qcutAssign_map_fst hq,
    fun _ _ hq => qcutAssign_map_fst hq⟩
  · simp [Main.identify_churn_users, List.map_map, Function.comp_def]
  · simp [Streamlit.tag_churn, List.map_map, Function.comp_def]

/-- Witness for `metrics_read_only` at the concrete sample tables. -/
theorem metrics_read_only_witness :
    (qcutAssign (fun t : Main.Tagged => t.derived.base.total_games_played)
        sampleTaggedM = .ok sampleAnnM)
    ∧ sampleAnnM.map Prod.fst = sampleTaggedM
    ∧ (Main.identify_churn_users ⟨1000, 0⟩ 30
        (Main.read_data_and_prepare [sampleRow1])).map Main.Tagged.derived
      = Main.read_data_and_prepare [sampleRow1] := by
  have hM : qcutAssign (fun t : Main.Tagged => t.derived.base.total_games_played)
      sampleTaggedM = .ok sampleAnnM := by
    norm_num [qcutAssign, qEdges, sortAsc, insertAsc, quarterEdge, strictlyIncr,
      assignOf, sampleTaggedM, sampleAnnM, Main.deriveRecord, sampleRow1, sampleRow2]
  exact ⟨hM, (metrics_read_only ⟨1000, 0⟩ 30 [] []).2.2.1 _ _ hM,
    (metrics_read_only ⟨1000, 0⟩ 30 (Main.read_data_and_prepare [sampleRow1]) []).1⟩

/-- C10: in the batch variant, `monthly_revenue × cust_lifetime_months`
collapses record-wise to `total_deposit` whenever the lifetime is
nonzero, so `calculate_avg_clv` is exactly the mean deposit — matching
the label `present` prints: "Average CLV (mean total deposit)". -/
theorem clv_mean_deposit (rows : List UserRecord) (_hne : rows ≠ [])
    (h : ∀ d ∈ Main.read_data_and_prepare rows, d.cust_lifetime_months ≠ 0) :
    Main.calculate_avg_clv (Main.read_data_and_prepare rows)
      = mean (rows.map fun r => r.total_deposit) := by
  unfold Main.calculate_avg_clv
  have hmap : (Main.read_data_and_prepare rows).map
      (fun r => r.monthly_revenue * r.cust_lifetime_months)
      = rows.map fun r => r.total_deposit := by
    unfold Main.read_data_and_prepare
    rw [List.map_map]
    refine List.map_congr_left fun r hr => ?_
    have hd := h (Main.deriveRecord r)
      (List.mem_map_of_mem _ hr)
    simp only [Main.deriveRecord, Function.comp] at hd ⊢
    exact div_mul_cancel₀ _ hd
  rw [hmap]

/-- Witness for `clv_mean_deposit`: on the two sample rows the batch CLV
is the mean deposit 75. -/
theorem clv_mean_deposit_witness :
    ([sampleRow1, sampleRow2] ≠ ([] : List UserRecord))
    ∧ (∀ d ∈ Main.read_data_and_prepare [sampleRow1, sampleRow2],
        d.cust_lifetime_months ≠ 0)
    ∧ Main.calculate_avg_clv (Main.read_data_and_prepare [sampleRow1, sampleRow2])
        = mean ([sampleRow1, sampleRow2].map fun r => r.total_deposit) := by
  have h2 : ∀ d ∈ Main.read_data_and_prepare [sampleRow1, sampleRow2],
      d.cust_lifetime_months ≠ 0 := by
    norm_num [Main.read_data_and_prepare, Main.deriveRecord, sampleRow1, sampleRow2]
  exact ⟨by simp, h2, clv_mean_deposit _ (by simp) h2⟩
